import Mathlib

/-!
Verification of the zone weather state machine (`Weather.cpp`).

The embedding models the weather object of one zone: its discrete type,
continuous intensity (as an exact rational, standing for the C++ float),
the transition algorithm `ReGenerate`, the broadcast path `UpdateWeather`,
the forced setter `SetWeather`, the per-tick driver `Update`, and the pure
classifier `GetWeatherState`.  Random draws are passed in explicitly as a
`Draws` record; the season is passed as a parameter, with the day-of-year
to season-index computation modelled separately as `seasonIndex`.
-/

namespace TrinityWeather

/-- The weather type enumeration (`WeatherType`). -/
inductive WeatherType where
  | Fine
  | Rain
  | Snow
  | Storm
  | Thunders
  | BlackRain
deriving DecidableEq

/-- The client-facing weather state enumeration (`WeatherState`). -/
inductive WeatherState where
  | Fine
  | Fog
  | LightRain
  | MediumRain
  | HeavyRain
  | LightSnow
  | MediumSnow
  | HeavySnow
  | LightSandstorm
  | MediumSandstorm
  | HeavySandstorm
  | Thunders
  | BlackRain
deriving DecidableEq

/-- One season row of the chance table (`WeatherSeasonChances`). -/
structure WeatherSeasonChances where
  rainChance : ℕ
  snowChance : ℕ
  stormChance : ℕ
deriving DecidableEq

/-- The per-zone chance table (`WeatherData`): one row per season (4 seasons). -/
structure WeatherData where
  data : Fin 4 → WeatherSeasonChances

/-- The mutable fields of a `Weather` object: `m_type` and `m_intensity`.
Intensity is modelled as an exact rational. -/
structure WeatherMachine where
  m_type : WeatherType
  m_intensity : ℚ
deriving DecidableEq

/-- The float literal `0.33333334f` used throughout `ReGenerate`. -/
def c13 : ℚ := 33333334 / 100000000

/-- The float literal `0.6666667f` used in the radical-change branch. -/
def c23 : ℚ := 6666667 / 10000000

/-- The float literal `0.9999f` (maximal intensity). -/
def r9999 : ℚ := 9999 / 10000

/-- The float literal `0.3333f` scaling the fresh-intensity draw. -/
def r3333 : ℚ := 3333 / 10000

/-- The float literal `0.3334f` (medium-band offset). -/
def r3334 : ℚ := 3334 / 10000

/-- The float literal `0.6667f` (heavy-band offset). -/
def r6667 : ℚ := 6667 / 10000

/-- All random draws a single `ReGenerate` pass may consume, passed in
explicitly: `u = urand(0,99)` (main branch selector), `severeRoll =
urand(0,99)` (radical branch, heavy intensity), `pickRoll = urand(1,100)`
(seasonal type pick), `severeRoll2 = urand(0,99)` (severe fresh-intensity
band pick), and `norm = rand_norm()`. -/
structure Draws where
  u : ℕ
  severeRoll : ℕ
  pickRoll : ℕ
  severeRoll2 : ℕ
  norm : ℚ

/-- `Weather::GetWeatherState`: classify `(m_type, m_intensity)` into the
client-facing state. -/
def GetWeatherState (w : WeatherMachine) : WeatherState :=
  if w.m_intensity < 27 / 100 then .Fine
  else
    match w.m_type with
    | .Rain =>
        if w.m_intensity < 40 / 100 then .LightRain
        else if w.m_intensity < 70 / 100 then .MediumRain
        else .HeavyRain
    | .Snow =>
        if w.m_intensity < 40 / 100 then .LightSnow
        else if w.m_intensity < 70 / 100 then .MediumSnow
        else .HeavySnow
    | .Storm =>
        if w.m_intensity < 40 / 100 then .LightSandstorm
        else if w.m_intensity < 70 / 100 then .MediumSandstorm
        else .HeavySandstorm
    | .BlackRain => .BlackRain
    | .Thunders => .Thunders
    | .Fine => .Fine

/-- Written from the words of the specification (§4.2 WeatherStateClassifier),
independently of the source, for comparison with `GetWeatherState`:
intensity below 0.27 is Fine regardless of type; otherwise Rain, Snow and
Storm use the light/medium/heavy bands at 0.40 and 0.70, BlackRain and
Thunders are fixed states, and Fine yields Fine. -/
def ClassifySpec (ty : WeatherType) (i : ℚ) : WeatherState :=
  if i < 27 / 100 then .Fine
  else
    match ty with
    | .Rain =>
        if i < 40 / 100 then .LightRain
        else if i < 70 / 100 then .MediumRain
        else .HeavyRain
    | .Snow =>
        if i < 40 / 100 then .LightSnow
        else if i < 70 / 100 then .MediumSnow
        else .HeavySnow
    | .Storm =>
        if i < 40 / 100 then .LightSandstorm
        else if i < 70 / 100 then .MediumSandstorm
        else .HeavySandstorm
    | .BlackRain => .BlackRain
    | .Thunders => .Thunders
    | .Fine => .Fine

/-- The season-index computation inside `ReGenerate`:
`((ltime.tm_yday - 78 + 365) / 91) % 4`, in C integer arithmetic. -/
def seasonIndex (tm_yday : Int) : Int :=
  ((tm_yday - 78 + 365) / 91) % 4

/-- The "Get fair" step of `ReGenerate`: when `u < 60` and the intensity is
below `0.33333334f`, collapse the state to `(Fine, 0)`; otherwise leave it. -/
def getFairStep (u : ℕ) (w : WeatherMachine) : WeatherMachine :=
  if u < 60 ∧ w.m_intensity < c13 then ⟨.Fine, 0⟩ else w

/-- The early-returning part of the radical-change branch of `ReGenerate`
(reached with `u ≥ 90`): when the type is not Fine, intensity below
`0.33333334f` jumps to `0.9999f`, and intensity above `0.6666667f` drops by
`0.6666667f` when the severity roll is below 50; `none` means execution
falls through. -/
def radicalResult (d : Draws) (w : WeatherMachine) : Option (WeatherMachine × Bool) :=
  if w.m_type ≠ .Fine then
    if w.m_intensity < c13 then some ({ w with m_intensity := r9999 }, true)
    else if w.m_intensity > c23 ∧ d.severeRoll < 50 then
      some ({ w with m_intensity := w.m_intensity - c23 }, true)
    else none
  else none

/-- The "clear up" at the end of the radical-change branch: a non-Fine state
that did not return early becomes `(Fine, 0)` before the seasonal re-pick. -/
def afterRadical (w : WeatherMachine) : WeatherMachine :=
  if w.m_type ≠ .Fine then ⟨.Fine, 0⟩ else w

/-- The seasonal re-pick at the end of `ReGenerate`: pick a fresh type from
the cumulative rain/snow/storm chances of the season with `pickRoll`, then assign
a fresh intensity (0 when Fine; `norm * 0.3333f` when `u < 90`; otherwise the
medium or heavy band by `severeRoll2`), and report change by comparing with
the values captured at entry. -/
def rePick (wc : WeatherData) (season : Fin 4) (d : Draws) (w : WeatherMachine)
    (old_type : WeatherType) (old_intensity : ℚ) : WeatherMachine × Bool :=
  let chance1 := (wc.data season).rainChance
  let chance2 := chance1 + (wc.data season).snowChance
  let chance3 := chance2 + (wc.data season).stormChance
  let ty : WeatherType :=
    if d.pickRoll ≤ chance1 then .Rain
    else if d.pickRoll ≤ chance2 then .Snow
    else if d.pickRoll ≤ chance3 then .Storm
    else .Fine
  let w := { w with m_type := ty }
  let w :=
    { w with m_intensity :=
        if ty = .Fine then 0
        else if d.u < 90 then d.norm * r3333
        else if d.severeRoll2 < 50 then d.norm * r3333 + r3334
        else d.norm * r3333 + r6667 }
  (w, decide (w.m_type ≠ old_type ∨ w.m_intensity ≠ old_intensity))

/-- `Weather::ReGenerate`: one pass of the transition algorithm.  The chance
table is `chances` (`m_weatherChances`, possibly null), the season and all
random draws are explicit parameters, and the result is the new state
together with the "weather changed" report. -/
def ReGenerate (chances : Option WeatherData) (season : Fin 4) (d : Draws)
    (w0 : WeatherMachine) : WeatherMachine × Bool :=
  match chances with
  | none => (⟨.Fine, 0⟩, false)
  | some wc =>
    if d.u < 30 then (w0, false)
    else
      let old_type := w0.m_type
      let old_intensity := w0.m_intensity
      let w := getFairStep d.u w0
      if d.u < 60 ∧ w.m_type ≠ .Fine then
        ({ w with m_intensity := w.m_intensity - c13 }, true)
      else if d.u < 90 ∧ w.m_type ≠ .Fine then
        ({ w with m_intensity := w.m_intensity + c13 }, true)
      else
        match radicalResult d w with
        | some r => r
        | none => rePick wc season d (afterRadical w) old_type old_intensity

/-- The packet payload built in `Weather::UpdateWeather`:
`WorldPackets::Misc::Weather weather(state, m_intensity)`. -/
structure WeatherPacket where
  state : WeatherState
  intensity : ℚ
deriving DecidableEq

/-- Result of `Weather::UpdateWeather`: the state after the clamp, the packet
sent to the zone, and whether `SendZoneMessage` found any players. -/
structure UpdateWeatherResult where
  w : WeatherMachine
  packet : WeatherPacket
  sent : Bool
deriving DecidableEq

/-- The clamp at the top of `Weather::UpdateWeather`:
`if (m_intensity >= 1) m_intensity = 0.9999f; else if (m_intensity < 0)
m_intensity = 0.0001f;`. -/
def clampIntensity (i : ℚ) : ℚ :=
  if 1 ≤ i then r9999
  else if i < 0 then 1 / 10000
  else i

/-- `Weather::UpdateWeather`: clamp the stored intensity, classify, build the
packet, and send it to the zone; `hasPlayers` abstracts whether
`SendZoneMessage` reports any recipients (it is returned as `sent`). -/
def UpdateWeather (w0 : WeatherMachine) (hasPlayers : Bool) : UpdateWeatherResult :=
  let w : WeatherMachine := { w0 with m_intensity := clampIntensity w0.m_intensity }
  { w := w, packet := ⟨GetWeatherState w, w.m_intensity⟩, sent := hasPlayers }

/-- `Weather::SetWeather`: if both fields equal the current ones, return
without doing anything; otherwise assign them and call `UpdateWeather`.
The boolean records whether a broadcast was performed. -/
def SetWeather (w : WeatherMachine) (ty : WeatherType) (intensity : ℚ)
    (hasPlayers : Bool) : WeatherMachine × Bool :=
  if w.m_type = ty ∧ w.m_intensity = intensity then (w, false)
  else
    let r := UpdateWeather ⟨ty, intensity⟩ hasPlayers
    (r.w, true)

/-- Modelled from the spec: the interval timer of the weather object (`m_timer`,
class `IntervalTimer`, defined in a utility header not present here).  It
holds a threshold interval and a current accumulation. -/
structure IntervalTimer where
  interval : Int
  current : Int
deriving DecidableEq

/-- Modelled from the spec: "advances the internal timer by elapsed". -/
def timerUpdate (t : IntervalTimer) (diff : ℕ) : IntervalTimer :=
  { t with current := t.current + diff }

/-- Modelled from the spec: "when the timer has reached its threshold". -/
def timerPassed (t : IntervalTimer) : Bool :=
  t.interval ≤ t.current

/-- Modelled from the spec: "it resets to zero". -/
def timerReset (t : IntervalTimer) : IntervalTimer :=
  { t with current := 0 }

/-- A whole `Weather` object: the mutable type/intensity fields plus the
interval timer. -/
structure WeatherObj where
  machine : WeatherMachine
  timer : IntervalTimer
deriving DecidableEq

/-- Outcome of one `Weather::Update` call: the object afterwards, the boolean
returned to the caller (`active`), whether `UpdateWeather` was invoked
(`broadcasted`), and whether the script hook `OnWeatherUpdate` at the end of
`Update` was reached (`scriptNotified`). -/
structure UpdateOutcome where
  obj : WeatherObj
  active : Bool
  broadcasted : Bool
  scriptNotified : Bool
deriving DecidableEq

/-- `Weather::Update` (the per-tick driver): advance or zero-snap the timer;
when it passed, reset it and run `ReGenerate`; when the weather changed, run
`UpdateWeather` and return false early (skipping the script notification)
when no players were found; otherwise notify the script hook and return
true. -/
def Update (chances : Option WeatherData) (season : Fin 4) (d : Draws)
    (hasPlayers : Bool) (diff : ℕ) (st : WeatherObj) : UpdateOutcome :=
  let t :=
    if 0 ≤ st.timer.current then timerUpdate st.timer diff
    else { st.timer with current := 0 }
  if timerPassed t then
    let t2 := timerReset t
    let res := ReGenerate chances season d st.machine
    if res.2 then
      let r := UpdateWeather res.1 hasPlayers
      if r.sent then ⟨⟨r.w, t2⟩, true, true, true⟩
      else ⟨⟨r.w, t2⟩, false, true, false⟩
    else ⟨⟨res.1, t2⟩, true, false, true⟩
  else ⟨⟨st.machine, t⟩, true, false, true⟩

/-- A concrete chance table with identical rows, for witnesses. -/
def wcEx : WeatherData := ⟨fun _ => ⟨50, 30, 10⟩⟩

/-- A concrete draw record: `u = 95`, severity roll 99, pick roll 1,
second severity roll 60, unit-normal draw 0. -/
def dEx : Draws := ⟨95, 99, 1, 60, 0⟩

/-- A concrete draw record with `u = 30` (the get-better band). -/
def dEx2 : Draws := ⟨30, 0, 1, 0, 0⟩

/-- A concrete weather object: medium rain with an elapsed timer. -/
def stEx : WeatherObj := ⟨⟨.Rain, 1 / 2⟩, ⟨0, 0⟩⟩

/-- Claim C7: for every state with a chance table configured, when the drawn
`u` is in `[0,29]` `ReGenerate` returns false and leaves both type and
intensity exactly unchanged. -/
theorem C7_theorem (wc : WeatherData) (season : Fin 4) (d : Draws)
    (w : WeatherMachine) (h : d.u < 30) :
    ReGenerate (some wc) season d w = (w, false) := by
  unfold ReGenerate
  simp [h]

/-- Claim C7, witness: a concrete low-roll pass leaves medium rain alone. -/
theorem C7_witness :
    ReGenerate (some wcEx) 0 ⟨10, 0, 1, 0, 0⟩ ⟨.Rain, 1 / 2⟩ = (⟨.Rain, 1 / 2⟩, false) :=
  C7_theorem wcEx 0 ⟨10, 0, 1, 0, 0⟩ ⟨.Rain, 1 / 2⟩ (by norm_num)

/-- Claim C9: with no chance table, `ReGenerate` forces `(Fine, 0)` and
returns false, so `Update` never invokes the broadcast and keeps reporting
the zone active. -/
theorem C9_theorem (season : Fin 4) (d : Draws) (w : WeatherMachine)
    (hasPlayers : Bool) (diff : ℕ) (st : WeatherObj) :
    ReGenerate none season d w = (⟨.Fine, 0⟩, false) ∧
    (Update none season d hasPlayers diff st).broadcasted = false ∧
    (Update none season d hasPlayers diff st).active = true := by
  refine ⟨rfl, ?_, ?_⟩ <;>
  · unfold Update
    split <;>
    · simp [ReGenerate]
      split <;> rfl

/-- Claim C1, counterexample: broadcasting a stored state `(Rain, 0)` sends
intensity exactly 0 with a non-Fine type; the clamp does not lift it into
`[0.0001, 0.9999]`. -/
theorem C1_counterexample :
    (UpdateWeather ⟨.Rain, 0⟩ true).packet.intensity = 0 ∧
    WeatherType.Rain ≠ WeatherType.Fine ∧
    ¬ ((1 : ℚ) / 10000 ≤ (UpdateWeather ⟨.Rain, 0⟩ true).packet.intensity) := by
  refine ⟨?_, by decide, ?_⟩ <;> norm_num [UpdateWeather, clampIntensity]

/-- Claim C1, amended: the intensity sent in the broadcast equals the clamp
of the stored intensity and always lies in `[0, 1)`; values at or above 1
are clamped to 0.9999 and negative values to 0.0001, but values in
`[0, 0.0001)` — including exactly 0 with a non-Fine type — pass through
unchanged. -/
theorem C1_theorem (w : WeatherMachine) (hasPlayers : Bool) :
    (UpdateWeather w hasPlayers).packet.intensity = clampIntensity w.m_intensity ∧
    0 ≤ (UpdateWeather w hasPlayers).packet.intensity ∧
    (UpdateWeather w hasPlayers).packet.intensity < 1 ∧
    (1 ≤ w.m_intensity → (UpdateWeather w hasPlayers).packet.intensity = r9999) ∧
    (w.m_intensity < 0 → (UpdateWeather w hasPlayers).packet.intensity = 1 / 10000) := by
  have h : (UpdateWeather w hasPlayers).packet.intensity = clampIntensity w.m_intensity := rfl
  rw [h]
  unfold clampIntensity r9999
  split_ifs with h1 h2
  · exact ⟨rfl, by norm_num, by norm_num, fun _ => rfl, fun hc => by linarith⟩
  · exact ⟨rfl, by norm_num, by norm_num, fun hc => by linarith, fun _ => rfl⟩
  · exact ⟨rfl, by linarith, by linarith, fun hc => by linarith, fun hc => by linarith⟩

/-- Claim C1, amended, witness: a stored intensity of 3/2 is clamped to
0.9999 in the packet. -/
theorem C1_witness :
    (1 : ℚ) ≤ 3 / 2 ∧ (UpdateWeather ⟨.Rain, 3 / 2⟩ true).packet.intensity = r9999 :=
  ⟨by norm_num, (C1_theorem ⟨.Rain, 3 / 2⟩ true).2.2.2.1 (by norm_num)⟩

/-- Claim C2, counterexample: a call where the weather changes and the
broadcast finds no observers returns inactive and skips the script/observer
notification (the early return at the top of `Update` precedes the hook). -/
theorem C2_counterexample :
    (Update (some wcEx) 0 dEx false 0 stEx).active = false ∧
    (Update (some wcEx) 0 dEx false 0 stEx).scriptNotified = false := by
  have hre : ReGenerate (some wcEx) 0 dEx ⟨.Rain, 1 / 2⟩ = (⟨.Rain, 6667 / 10000⟩, true) := by
    norm_num [ReGenerate, getFairStep, radicalResult, afterRadical, rePick,
      wcEx, dEx, c13, c23, r3333, r6667]
    refine ⟨by decide, ?_⟩
    rw [if_neg (by decide : ¬ WeatherType.Rain = WeatherType.Fine)]
    norm_num
  have hup : Update (some wcEx) 0 dEx false 0 stEx =
      ⟨⟨⟨.Rain, 6667 / 10000⟩, ⟨0, 0⟩⟩, false, true, false⟩ := by
    norm_num [Update, stEx, timerUpdate, timerPassed, timerReset, hre,
      UpdateWeather, clampIntensity]
  rw [hup]
  exact ⟨rfl, rfl⟩

/-- Claim C2, amended: `Update` notifies the script/observer collaborator
exactly when it reports the zone active; on the path where a changed
weather finds no observers for its broadcast it returns false before the hook, so
the collaborator is not notified on that call. -/
theorem C2_theorem (chances : Option WeatherData) (season : Fin 4) (d : Draws)
    (hasPlayers : Bool) (diff : ℕ) (st : WeatherObj) :
    (Update chances season d hasPlayers diff st).scriptNotified =
      (Update chances season d hasPlayers diff st).active := by
  unfold Update
  split <;>
  · simp only []
    split
    · split
      · split <;> rfl
      · rfl
    · rfl

/-- Claim C3, counterexample: at `u = 30` with state `(Rain, 0.1)` the
collapse to `(Fine, 0)` fires, but the subsequent "get better" guard is
false on the now-Fine state, so the decrement is never applied to it: the
result of the pass is the seasonal re-pick outcome, not the decremented Fine
state. -/
theorem C3_counterexample :
    getFairStep 30 ⟨.Rain, 1 / 10⟩ = (⟨.Fine, 0⟩ : WeatherMachine) ∧
    ¬ (30 < 60 ∧ (getFairStep 30 ⟨.Rain, 1 / 10⟩).m_type ≠ WeatherType.Fine) ∧
    ReGenerate (some wcEx) 0 dEx2 ⟨.Rain, 1 / 10⟩ ≠
      ({ getFairStep 30 ⟨.Rain, 1 / 10⟩ with
          m_intensity := (getFairStep 30 ⟨.Rain, 1 / 10⟩).m_intensity - c13 }, true) := by
  have hfair : getFairStep 30 (⟨.Rain, 1 / 10⟩ : WeatherMachine) = ⟨.Fine, 0⟩ := by
    norm_num [getFairStep, c13]
  have hre : ReGenerate (some wcEx) 0 dEx2 ⟨.Rain, 1 / 10⟩ = (⟨.Rain, 0⟩, true) := by
    norm_num [ReGenerate, getFairStep, radicalResult, afterRadical, rePick,
      wcEx, dEx2, c13, r3333]
  refine ⟨hfair, ?_, ?_⟩
  · rw [hfair]
    simp
  · rw [hre, hfair]
    intro hcontra
    exact absurd (congrArg (fun p => p.1.m_type) hcontra) (by simp)

/-- Claim C3, amended: with a chance table, `u` in `[30,59]` and intensity
below `0.33333334f`, the pass collapses the state to `(Fine, 0)` and does
not return immediately; the subsequent `u < 60` "get better" decrement is
skipped, because its not-Fine guard now fails, and execution continues to
the seasonal re-pick in the same pass (compared against the entry values). -/
theorem C3_theorem (wc : WeatherData) (season : Fin 4) (d : Draws)
    (w : WeatherMachine) (h30 : 30 ≤ d.u) (h60 : d.u < 60)
    (hint : w.m_intensity < c13) :
    getFairStep d.u w = (⟨.Fine, 0⟩ : WeatherMachine) ∧
    ¬ (d.u < 60 ∧ (getFairStep d.u w).m_type ≠ WeatherType.Fine) ∧
    ReGenerate (some wc) season d w =
      rePick wc season d ⟨.Fine, 0⟩ w.m_type w.m_intensity := by
  have hfair : getFairStep d.u w = (⟨.Fine, 0⟩ : WeatherMachine) := by
    unfold getFairStep
    rw [if_pos ⟨h60, hint⟩]
  refine ⟨hfair, ?_, ?_⟩
  · rw [hfair]
    simp
  · simp only [ReGenerate]
    rw [if_neg (by omega : ¬ d.u < 30)]
    simp only [hfair]
    simp [radicalResult, afterRadical]

/-- Claim C3, amended, witness: the concrete collapse at `u = 30` on
`(Rain, 0.1)`. -/
theorem C3_witness :
    getFairStep 30 (⟨.Rain, 1 / 10⟩ : WeatherMachine) = (⟨.Fine, 0⟩ : WeatherMachine) ∧
    ReGenerate (some wcEx) 0 dEx2 ⟨.Rain, 1 / 10⟩ =
      rePick wcEx 0 dEx2 ⟨.Fine, 0⟩ WeatherType.Rain (1 / 10) := by
  have h := C3_theorem wcEx 0 dEx2 ⟨.Rain, 1 / 10⟩ (by norm_num [dEx2])
    (by norm_num [dEx2]) (by norm_num [c13])
  exact ⟨h.1, h.2.2⟩

/-- Claim C4: `GetWeatherState` coincides with the classifier written from
the reference table of the spec, and for any intensity at or above 0.27 it
returns Fine only when the type is Fine. -/
theorem C4_theorem (ty : WeatherType) (i : ℚ) :
    GetWeatherState ⟨ty, i⟩ = ClassifySpec ty i ∧
    (27 / 100 ≤ i → GetWeatherState ⟨ty, i⟩ = .Fine → ty = .Fine) := by
  constructor
  · rfl
  · intro h27 hfine
    cases ty
    · rfl
    all_goals
      exfalso
      revert hfine
      unfold GetWeatherState
      rw [if_neg (by push_neg; exact h27)]
      split_ifs <;> simp

/-- Claim C4, witness: the classifier agreement at `(Rain, 1/2)` and the
only-Fine consequence at `(Fine, 3/10)`. -/
theorem C4_witness :
    WeatherType.Fine = WeatherType.Fine ∧
    GetWeatherState ⟨.Rain, 1 / 2⟩ = ClassifySpec .Rain (1 / 2) :=
  ⟨(C4_theorem .Fine (3 / 10)).2 (by norm_num) (by simp [GetWeatherState]),
   (C4_theorem .Rain (1 / 2)).1⟩

/-- Claim C5: behaviour of the radical-change branch (`u ≥ 90`, type not
Fine): intensity below `0.33333334f` jumps to exactly `0.9999f` with the type
unchanged and true returned; intensity above `0.6666667f` with a second draw
below 50 decreases by `0.6666667f` and returns true, and otherwise the state
clears to `(Fine, 0)` and execution continues to the seasonal re-pick;
intensity in the middle band clears to `(Fine, 0)` and continues to the
seasonal re-pick. -/
theorem C5_theorem (wc : WeatherData) (season : Fin 4) (d : Draws)
    (w : WeatherMachine) (hty : w.m_type ≠ .Fine) (hu : 90 ≤ d.u) :
    (w.m_intensity < c13 →
      ReGenerate (some wc) season d w = ({ w with m_intensity := r9999 }, true)) ∧
    (c23 < w.m_intensity → d.severeRoll < 50 →
      ReGenerate (some wc) season d w =
        ({ w with m_intensity := w.m_intensity - c23 }, true)) ∧
    (c23 < w.m_intensity → 50 ≤ d.severeRoll →
      ReGenerate (some wc) season d w =
        rePick wc season d ⟨.Fine, 0⟩ w.m_type w.m_intensity) ∧
    (c13 ≤ w.m_intensity → w.m_intensity ≤ c23 →
      ReGenerate (some wc) season d w =
        rePick wc season d ⟨.Fine, 0⟩ w.m_type w.m_intensity) := by
  have h30 : ¬ d.u < 30 := by omega
  have h60 : ¬ d.u < 60 := by omega
  have h90 : ¬ d.u < 90 := by omega
  have hfair : getFairStep d.u w = w := by
    unfold getFairStep
    rw [if_neg fun hc => h60 hc.1]
  have hc1323 : c13 < c23 := by norm_num [c13, c23]
  have hmain : ReGenerate (some wc) season d w =
      (match radicalResult d w with
       | some r => r
       | none => rePick wc season d (afterRadical w) w.m_type w.m_intensity) := by
    simp only [ReGenerate]
    rw [if_neg h30]
    simp only [hfair]
    rw [if_neg fun hc => h60 hc.1, if_neg fun hc => h90 hc.1]
  have hafter : afterRadical w = (⟨.Fine, 0⟩ : WeatherMachine) := by
    unfold afterRadical
    rw [if_pos hty]
  refine ⟨?_, ?_, ?_, ?_⟩
  · intro hlt
    rw [hmain]
    unfold radicalResult
    rw [if_pos hty, if_pos hlt]
  · intro hgt hroll
    rw [hmain]
    unfold radicalResult
    rw [if_pos hty, if_neg (by linarith), if_pos ⟨hgt, hroll⟩]
  · intro hgt hroll
    rw [hmain]
    unfold radicalResult
    rw [if_pos hty, if_neg (by linarith), if_neg fun hc => absurd hc.2 (by omega), hafter]
  · intro hge hle
    rw [hmain]
    unfold radicalResult
    rw [if_pos hty, if_neg (by linarith), if_neg fun hc => absurd hc.1 (by linarith), hafter]

/-- Claim C5, witness: the intensify case at `(Rain, 0.1)` with `u = 95`. -/
theorem C5_witness :
    ReGenerate (some wcEx) 0 dEx ⟨.Rain, 1 / 10⟩ =
      ({ (⟨.Rain, 1 / 10⟩ : WeatherMachine) with m_intensity := r9999 }, true) :=
  (C5_theorem wcEx 0 dEx ⟨.Rain, 1 / 10⟩ (by decide) (by decide)).1 (by norm_num [c13])

/-- Claim C6, counterexample: forcing `(Rain, 2.0)` twice broadcasts twice,
because the broadcast clamp stores `0.9999`, which differs from the
requested `2.0` on the second call. -/
theorem C6_counterexample :
    (SetWeather ⟨.Fine, 0⟩ .Rain 2 true).2 = true ∧
    (SetWeather (SetWeather ⟨.Fine, 0⟩ .Rain 2 true).1 .Rain 2 true).2 = true := by
  have h1 : SetWeather ⟨.Fine, 0⟩ .Rain 2 true = (⟨.Rain, r9999⟩, true) := by
    unfold SetWeather
    rw [if_neg fun hc => absurd hc.1 (by decide)]
    norm_num [UpdateWeather, clampIntensity]
  have h2 : SetWeather (⟨.Rain, r9999⟩ : WeatherMachine) .Rain 2 true =
      (⟨.Rain, r9999⟩, true) := by
    unfold SetWeather
    rw [if_neg fun hc => absurd hc.2 (by norm_num [r9999])]
    norm_num [UpdateWeather, clampIntensity]
  rw [h1]
  exact ⟨rfl, by rw [show ((⟨.Rain, r9999⟩, true) : WeatherMachine × Bool).1 =
    (⟨.Rain, r9999⟩ : WeatherMachine) from rfl, h2]⟩

/-- Claim C6, amended: `SetWeather` is a no-op when both requested fields
equal the current ones and otherwise assigns them and broadcasts once;
calling it twice with the same arguments triggers at most one broadcast
provided the requested intensity lies in `[0, 1)` (so the broadcast clamp
does not modify the stored value) — the second call is then a no-op. -/
theorem C6_theorem (w : WeatherMachine) (ty : WeatherType) (i : ℚ) (hp : Bool) :
    (w.m_type = ty ∧ w.m_intensity = i → SetWeather w ty i hp = (w, false)) ∧
    (¬ (w.m_type = ty ∧ w.m_intensity = i) → (SetWeather w ty i hp).2 = true) ∧
    (0 ≤ i → i < 1 → (SetWeather (SetWeather w ty i hp).1 ty i hp).2 = false) := by
  refine ⟨?_, ?_, ?_⟩
  · intro hc
    unfold SetWeather
    rw [if_pos hc]
  · intro hc
    unfold SetWeather
    rw [if_neg hc]
  · intro hz ho
    by_cases hc : w.m_type = ty ∧ w.m_intensity = i
    · have hfirst : (SetWeather w ty i hp).1 = w := by
        unfold SetWeather
        rw [if_pos hc]
      rw [hfirst]
      unfold SetWeather
      rw [if_pos hc]
    · have hclamp : clampIntensity i = i := by
        unfold clampIntensity
        rw [if_neg (by linarith), if_neg (by linarith)]
      have hfirst : (SetWeather w ty i hp).1 = ⟨ty, i⟩ := by
        unfold SetWeather
        rw [if_neg hc]
        show (UpdateWeather ⟨ty, i⟩ hp).w = (⟨ty, i⟩ : WeatherMachine)
        unfold UpdateWeather
        show (⟨ty, clampIntensity i⟩ : WeatherMachine) = ⟨ty, i⟩
        rw [hclamp]
      rw [hfirst]
      unfold SetWeather
      rw [if_pos ⟨rfl, rfl⟩]

/-- Claim C6, amended, witness: a redundant call is a no-op, and a second
identical in-range call after a real change does not broadcast. -/
theorem C6_witness :
    SetWeather ⟨.Rain, 1 / 2⟩ .Rain (1 / 2) true = (⟨.Rain, 1 / 2⟩, false) ∧
    (SetWeather ⟨.Fine, 0⟩ .Rain (1 / 2) true).2 = true ∧
    (SetWeather (SetWeather ⟨.Fine, 0⟩ .Rain (1 / 2) true).1 .Rain (1 / 2) true).2 = false :=
  ⟨(C6_theorem ⟨.Rain, 1 / 2⟩ .Rain (1 / 2) true).1 ⟨rfl, rfl⟩,
   (C6_theorem ⟨.Fine, 0⟩ .Rain (1 / 2) true).2.1 fun hc => absurd hc.1 (by decide),
   (C6_theorem ⟨.Fine, 0⟩ .Rain (1 / 2) true).2.2 (by norm_num) (by norm_num)⟩

/-- The seasonal re-pick depends on the season only through the chance-table
row it selects. -/
theorem rePick_congr (wc : WeatherData) (s t : Fin 4) (d : Draws)
    (x : WeatherMachine) (o : WeatherType) (oi : ℚ) (h : wc.data s = wc.data t) :
    rePick wc s d x o oi = rePick wc t d x o oi := by
  unfold rePick
  rw [h]

/-- Claim C8: the season index is `((day_of_year - 78 + 365) / 91) % 4` in
integer arithmetic — day 78 gives 0 (spring), day 169 gives 1 (summer), day
0 gives 3 via the `+365` offset — and the season influences `ReGenerate`
only through the chance-table row it selects, never the state mutation. -/
theorem C8_theorem :
    seasonIndex 78 = 0 ∧ seasonIndex 169 = 1 ∧ seasonIndex 0 = 3 ∧
    ∀ (wc : WeatherData) (s t : Fin 4) (d : Draws) (w : WeatherMachine),
      wc.data s = wc.data t →
      ReGenerate (some wc) s d w = ReGenerate (some wc) t d w := by
  refine ⟨by decide, by decide, by decide, ?_⟩
  intro wc s t d w h
  have hr : ∀ (x : WeatherMachine) (o : WeatherType) (oi : ℚ),
      rePick wc s d x o oi = rePick wc t d x o oi :=
    fun x o oi => rePick_congr wc s t d x o oi h
  simp only [ReGenerate]
  split_ifs with h30 h60 h90
  · rfl
  · rfl
  · rfl
  · cases hrad : radicalResult d (getFairStep d.u w) with
    | some r => rfl
    | none => exact hr _ _ _

/-- Claim C8, witness: equal chance rows give equal transitions across
seasons 0 and 1. -/
theorem C8_witness :
    wcEx.data 0 = wcEx.data 1 ∧
    ReGenerate (some wcEx) 0 dEx ⟨.Rain, 1 / 2⟩ =
      ReGenerate (some wcEx) 1 dEx ⟨.Rain, 1 / 2⟩ :=
  ⟨rfl, C8_theorem.2.2.2 wcEx 0 1 dEx ⟨.Rain, 1 / 2⟩ rfl⟩

/-- Claim C10: `ReGenerate` never introduces BlackRain or Thunders — from a
state whose type is neither, the resulting type is one of Fine, Rain, Snow,
Storm (the seasonal re-pick only chooses among these four). -/
theorem C10_theorem (chances : Option WeatherData) (season : Fin 4) (d : Draws)
    (w : WeatherMachine) (h1 : w.m_type ≠ .BlackRain) (h2 : w.m_type ≠ .Thunders) :
    (ReGenerate chances season d w).1.m_type = WeatherType.Fine ∨
    (ReGenerate chances season d w).1.m_type = WeatherType.Rain ∨
    (ReGenerate chances season d w).1.m_type = WeatherType.Snow ∨
    (ReGenerate chances season d w).1.m_type = WeatherType.Storm := by
  cases chances with
  | none => exact Or.inl rfl
  | some wc =>
    have hallowed : w.m_type = WeatherType.Fine ∨ w.m_type = WeatherType.Rain ∨
        w.m_type = WeatherType.Snow ∨ w.m_type = WeatherType.Storm := by
      cases hty : w.m_type
      · exact Or.inl rfl
      · exact Or.inr (Or.inl rfl)
      · exact Or.inr (Or.inr (Or.inl rfl))
      · exact Or.inr (Or.inr (Or.inr rfl))
      · exact absurd hty h2
      · exact absurd hty h1
    have hfairA : (getFairStep d.u w).m_type = WeatherType.Fine ∨
        (getFairStep d.u w).m_type = WeatherType.Rain ∨
        (getFairStep d.u w).m_type = WeatherType.Snow ∨
        (getFairStep d.u w).m_type = WeatherType.Storm := by
      unfold getFairStep
      split_ifs
      · exact Or.inl rfl
      · exact hallowed
    have hrePick : ∀ (x : WeatherMachine) (o : WeatherType) (oi : ℚ),
        (rePick wc season d x o oi).1.m_type = WeatherType.Fine ∨
        (rePick wc season d x o oi).1.m_type = WeatherType.Rain ∨
        (rePick wc season d x o oi).1.m_type = WeatherType.Snow ∨
        (rePick wc season d x o oi).1.m_type = WeatherType.Storm := by
      intro x o oi
      simp only [rePick]
      split_ifs
      · exact Or.inr (Or.inl rfl)
      · exact Or.inr (Or.inr (Or.inl rfl))
      · exact Or.inr (Or.inr (Or.inr rfl))
      · exact Or.inl rfl
    have hradT : ∀ r, radicalResult d (getFairStep d.u w) = some r →
        r.1.m_type = (getFairStep d.u w).m_type := by
      intro r hr
      unfold radicalResult at hr
      split_ifs at hr
      · injection hr with h
        subst h
        rfl
      · injection hr with h
        subst h
        rfl
    simp only [ReGenerate]
    split_ifs with h30 h60 h90
    · exact hallowed
    · exact hfairA
    · exact hfairA
    · cases hrad : radicalResult d (getFairStep d.u w) with
      | some r =>
          show r.1.m_type = WeatherType.Fine ∨ r.1.m_type = WeatherType.Rain ∨
            r.1.m_type = WeatherType.Snow ∨ r.1.m_type = WeatherType.Storm
          rw [hradT r hrad]
          exact hfairA
      | none => exact hrePick _ _ _

/-- Claim C10, witness: a radical pass from `(Rain, 0.5)` lands in the four
seasonal types. -/
theorem C10_witness :
    (ReGenerate (some wcEx) 0 dEx ⟨.Rain, 1 / 2⟩).1.m_type = WeatherType.Fine ∨
    (ReGenerate (some wcEx) 0 dEx ⟨.Rain, 1 / 2⟩).1.m_type = WeatherType.Rain ∨
    (ReGenerate (some wcEx) 0 dEx ⟨.Rain, 1 / 2⟩).1.m_type = WeatherType.Snow ∨
    (ReGenerate (some wcEx) 0 dEx ⟨.Rain, 1 / 2⟩).1.m_type = WeatherType.Storm :=
  C10_theorem (some wcEx) 0 dEx ⟨.Rain, 1 / 2⟩ (by decide) (by decide)

end TrinityWeather
